import Mathlib

/-!
Verification of the travel-planner repository's orchestration layer.

The repository holds two small Python programs:
* `streamlit_app.py` — a form-driven UI that builds a `FlightRequest` and a
  `HotelRequest` from the form fields, dispatches exactly one call to an
  external backend selected by a search-mode radio button, and renders the
  returned result object into tabbed panels;
* `debug_ai.py` — a diagnostics script that classifies the `GOOGLE_API_KEY`
  environment value by shape and then attempts one test connection.

We embed both shallowly: the UI submission becomes a pure function from the
form inputs, the selected mode and a backend oracle to the list of backend
calls made and the list of UI effects produced; the diagnostics script
becomes a pure function from the optional key value to the list of steps it
performs.  The external backend is opaque, so it is a parameter
`backend : BackendCall → BackendResponse`.
-/

namespace TravelPlanner

/-- `FlightRequest` as constructed in `run_search` (streamlit_app.py lines
97-102): origin, destination and the two dates already stringified. -/
structure FlightRequest where
  origin : String
  destination : String
  outbound_date : String
  return_date : String
deriving DecidableEq, Repr

/-- `HotelRequest` as constructed in `run_search` (streamlit_app.py lines
104-108): a free-text location and the two stay dates. -/
structure HotelRequest where
  location : String
  check_in_date : String
  check_out_date : String
deriving DecidableEq, Repr

/-- One flight record of the backend's result, with the fields the flights
tab reads (streamlit_app.py lines 159-164). -/
structure Flight where
  airline : String
  price : String
  duration : String
  stops : String
  departure : String
  arrival : String
deriving DecidableEq, Repr

/-- One hotel record of the backend's result, with the fields the hotels tab
reads (streamlit_app.py lines 177-182). -/
structure Hotel where
  name : String
  price : String
  rating : String
  location : String
  link : String
deriving DecidableEq, Repr

/-- The aggregate result object the backend returns and the rendering code
consumes read-only. -/
structure SearchResult where
  flights : List Flight
  hotels : List Hotel
  ai_flight_recommendation : String
  ai_hotel_recommendation : String
  itinerary : String
deriving DecidableEq, Repr

/-- The Python value held in `search_result` after dispatch: either `None`
or an object; an object carries the result its attributes expose and its
Python truthiness (`if search_result:` tests truthiness, not non-nullness). -/
inductive PyValue where
  | pyNone
  | obj (r : SearchResult) (truthy : Bool)
deriving DecidableEq, Repr

/-- Python truthiness of the dispatched value: `None` is falsy, an object
carries its own truthiness. -/
def truthy : PyValue → Bool
  | PyValue.pyNone => false
  | PyValue.obj _ t => t

/-- The three options of the `st.radio("Search Mode", ...)` control
(streamlit_app.py lines 43-46); the radio yields exactly one of them. -/
inductive SearchMode where
  | complete
  | flightsOnly
  | hotelsOnly
deriving DecidableEq, Repr

/-- One invocation of an external backend entry point, with the request
objects passed to it (streamlit_app.py lines 113-121). -/
inductive BackendCall where
  | complete (flight_request : FlightRequest) (hotel_request : HotelRequest)
  | flightsOnly (flight_request : FlightRequest)
  | hotelsOnly (hotel_request : HotelRequest)
deriving DecidableEq, Repr

/-- The opaque backend's behaviour on one call: return a value or raise an
exception carrying a message. -/
inductive BackendResponse where
  | returns (v : PyValue)
  | raises (msg : String)
deriving DecidableEq, Repr

/-- One observable UI effect of a submission. -/
inductive Effect where
  | errorMsg (s : String)
  | infoMsg (s : String)
  | tabsShown (labels : List String)
  | subheader (s : String)
  | flightCard (col : Nat) (f : Flight)
  | hotelCard (col : Nat) (h : Hotel)
  | linkButton (label : String) (url : String)
  | expander (title : String)
  | markdown (s : String)
  | downloadButton (label : String) (content : String) (fileName : String)
deriving DecidableEq, Repr

/-- The form's state at submission (streamlit_app.py lines 61-89): the two
airport fields, the stringified dates, the use-flight-destination checkbox,
and the independent hotel-location text field (shown only when the checkbox
is off). -/
structure FormInputs where
  origin : String
  destination : String
  outbound_date : String
  return_date : String
  use_flight_destination : Bool
  hotel_location_input : String
  check_in_date : String
  check_out_date : String
deriving DecidableEq, Repr

/-- The `location` variable (streamlit_app.py lines 78-82): the flight
destination when the checkbox is on, the independent text field otherwise. -/
def location (inp : FormInputs) : String :=
  if inp.use_flight_destination then inp.destination else inp.hotel_location_input

/-- The `FlightRequest` built inside `run_search` (lines 97-102). -/
def mkFlightReq (inp : FormInputs) : FlightRequest :=
  { origin := inp.origin
    destination := inp.destination
    outbound_date := inp.outbound_date
    return_date := inp.return_date }

/-- The `HotelRequest` built inside `run_search` (lines 104-108). -/
def mkHotelReq (inp : FormInputs) : HotelRequest :=
  { location := location inp
    check_in_date := inp.check_in_date
    check_out_date := inp.check_out_date }

/-- Which entry point the `if`/`elif` chain of `run_search` (lines 113-121)
invokes for each mode, with the request objects it passes. -/
def dispatchCall (mode : SearchMode) (inp : FormInputs) : BackendCall :=
  match mode with
  | SearchMode.complete => BackendCall.complete (mkFlightReq inp) (mkHotelReq inp)
  | SearchMode.flightsOnly => BackendCall.flightsOnly (mkFlightReq inp)
  | SearchMode.hotelsOnly => BackendCall.hotelsOnly (mkHotelReq inp)

/-- `run_search` (streamlit_app.py lines 95-127): build the requests, make
the single backend call selected by the mode, and either return its value,
or — when the call raises — show `Search failed: <msg>` and return `None`.
The first component records the backend calls made, the second the UI
effects emitted inside `run_search`, the third the returned value. -/
def run_search (backend : BackendCall → BackendResponse) (mode : SearchMode)
    (inp : FormInputs) : List BackendCall × List Effect × PyValue :=
  match backend (dispatchCall mode inp) with
  | BackendResponse.returns v => ([dispatchCall mode inp], [], v)
  | BackendResponse.raises msg =>
      ([dispatchCall mode inp],
       [Effect.errorMsg ("Search failed: " ++ msg)], PyValue.pyNone)

/-- The two tab labels for single-domain modes and the four for the combined
mode (streamlit_app.py lines 144-149). -/
def tabLabels (mode : SearchMode) : List String :=
  match mode with
  | SearchMode.flightsOnly => ["✈️ Flights", "🏆 AI Recommendation"]
  | SearchMode.hotelsOnly => ["🏨 Hotels", "🏆 AI Recommendation"]
  | SearchMode.complete =>
      ["✈️ Flights", "🏨 Hotels", "🏆 AI Recommendations", "📅 Itinerary"]

/-- The cards of the flights tab: `for i, flight in enumerate(...)` places
card `i` in display column `i % 2` (lines 156-164). -/
def flightCards : Nat → List Flight → List Effect
  | _, [] => []
  | i, f :: fs => Effect.flightCard (i % 2) f :: flightCards (i + 1) fs

/-- The cards of the hotels tab: card `i` goes to column `i % 3` and each
card carries a `View Deal` link button (lines 174-182). -/
def hotelCards : Nat → List Hotel → List Effect
  | _, [] => []
  | i, h :: hs =>
      Effect.hotelCard (i % 3) h :: Effect.linkButton "View Deal" h.link ::
        hotelCards (i + 1) hs

/-- Body of the flights tab (lines 153-166): a subheader with the count,
then either the cards (non-empty list is truthy) or the
`No flights found.` notice. -/
def renderFlightsTab (flights : List Flight) : List Effect :=
  Effect.subheader ("Flight Options (" ++ toString flights.length ++ ")") ::
    (match flights with
     | [] => [Effect.infoMsg "No flights found."]
     | f :: fs => flightCards 0 (f :: fs))

/-- Body of the hotels tab (lines 171-184): a subheader with the count, then
either the cards or the `No hotels found.` notice. -/
def renderHotelsTab (hotels : List Hotel) : List Effect :=
  Effect.subheader ("Hotel Options (" ++ toString hotels.length ++ ")") ::
    (match hotels with
     | [] => [Effect.infoMsg "No hotels found."]
     | h :: hs => hotelCards 0 (h :: hs))

/-- The recommendations tab (lines 186-195): the flight analysis expander
unless the mode is Hotels Only, the hotel analysis expander unless the mode
is Flights Only. -/
def recTabEffects (mode : SearchMode) (r : SearchResult) : List Effect :=
  (if mode = SearchMode.hotelsOnly then []
   else [Effect.expander "✈️ AI Flight Analysis",
         Effect.markdown r.ai_flight_recommendation]) ++
  (if mode = SearchMode.flightsOnly then []
   else [Effect.expander "🏨 AI Hotel Analysis",
         Effect.markdown r.ai_hotel_recommendation])

/-- The itinerary tab (lines 198-207), present only in the combined mode:
the itinerary text and a download button with fixed filename
`itinerary.md`. -/
def itineraryTabEffects (mode : SearchMode) (r : SearchResult) : List Effect :=
  if mode = SearchMode.complete then
    [Effect.subheader "📅 Your AI-Generated Itinerary",
     Effect.markdown r.itinerary,
     Effect.downloadButton "📥 Download Itinerary" r.itinerary "itinerary.md"]
  else []

/-- Rendering of a truthy result (streamlit_app.py lines 139-207): show the
mode's tab set, then the flights tab unless Hotels Only, the hotels tab
unless Flights Only, the recommendations tab, and the itinerary tab in the
combined mode. -/
def renderResults (mode : SearchMode) (r : SearchResult) : List Effect :=
  Effect.tabsShown (tabLabels mode) ::
    ((if mode = SearchMode.hotelsOnly then [] else renderFlightsTab r.flights) ++
     (if mode = SearchMode.flightsOnly then [] else renderHotelsTab r.hotels) ++
     recTabEffects mode r ++
     itineraryTabEffects mode r)

/-- The submit handler (streamlit_app.py lines 129-207): when origin or
destination is empty (`not origin or not destination`) show the validation
error and stop; otherwise run the search and, when the returned value is
truthy, render the result tabs.  Returns the backend calls made and the UI
effects emitted. -/
def handleSubmit (backend : BackendCall → BackendResponse) (mode : SearchMode)
    (inp : FormInputs) : List BackendCall × List Effect :=
  if inp.origin = "" ∨ inp.destination = "" then
    ([], [Effect.errorMsg "Please provide origin and destination."])
  else
    match run_search backend mode inp with
    | (calls, effs, v) =>
        (calls,
         effs ++
           match v with
           | PyValue.obj r true => renderResults mode r
           | _ => [])

end TravelPlanner

namespace DebugAi

/-- Plain list-level check that `needle` is a prefix of `hay`. -/
def listIsPref : List Char → List Char → Bool
  | [], _ => true
  | _ :: _, [] => false
  | a :: as, b :: bs => a = b && listIsPref as bs

/-- Plain list-level substring containment. -/
def listIsSub (needle : List Char) : List Char → Bool
  | [] => needle.isEmpty
  | b :: bs => listIsPref needle (b :: bs) || listIsSub needle bs

/-- Python's `needle in hay` on strings: substring containment. -/
def strContains (needle hay : String) : Bool :=
  listIsSub needle.toList hay.toList

/-- The placeholder literal the diagnostics script checks for
(debug_ai.py line 21). -/
def placeholderLit : String := "your_google_api_key_here"

/-- The four shape classes the diagnostics script distinguishes. -/
inductive KeyClass where
  | absent
  | placeholder
  | tooShort
  | validFormat
deriving DecidableEq, Repr

/-- The branch structure of debug_ai.py lines 17-27: `if not api_key` (so a
missing or empty value) reports absence; otherwise the placeholder check —
substring containment, `"your_google_api_key_here" in api_key` — comes
first, then `len(api_key) < 30` reports too-short, else valid format. -/
def classifyKey : Option String → KeyClass
  | none => KeyClass.absent
  | some k =>
      if k = "" then KeyClass.absent
      else if strContains placeholderLit k then KeyClass.placeholder
      else if k.length < 30 then KeyClass.tooShort
      else KeyClass.validFormat

/-- The messages printed by the classification block (debug_ai.py lines
17-27), in order. -/
def keyReportMsgs : Option String → List String
  | none => ["ERROR: GOOGLE_API_KEY not found in environment or .env file"]
  | some k =>
      if k = "" then
        ["ERROR: GOOGLE_API_KEY not found in environment or .env file"]
      else
        ("API Key is set (Length: " ++ toString k.length ++ ")") ::
          (if strContains placeholderLit k then
            ["CRITICAL ERROR: API Key appears to be the PLACEHOLDER string!"]
          else if k.length < 30 then
            ["WARNING: API Key seems too short (" ++ toString k.length ++
               " chars). Real keys are usually longer.",
             "Value: " ++ k]
          else
            ["API Key seems valid format (starts with: " ++ k.take 6 ++ "...)"])

/-- One observable step of the diagnostics script. -/
inductive DebugStep where
  | printMsg (s : String)
  | connectionTest (api_key : Option String)
deriving DecidableEq, Repr

/-- Top-level flow of debug_ai.py after the imports: print the header, print
the classification messages, then — unconditionally, the test block at lines
29-58 is not under the `else` — announce and attempt the test connection
with whatever key value was read. -/
def debugScript (api_key : Option String) : List DebugStep :=
  DebugStep.printMsg "Checking API Key configuration..." ::
    ((keyReportMsgs api_key).map DebugStep.printMsg ++
     [DebugStep.printMsg "\nTesting CrewAI / Gemini Connection...",
      DebugStep.connectionTest api_key])

end DebugAi

namespace TravelPlanner

/-- No flight card ever appears among the hotel-tab card effects. -/
theorem flightCard_not_mem_hotelCards (c : Nat) (f : Flight) (n : Nat)
    (hs : List Hotel) : Effect.flightCard c f ∉ hotelCards n hs := by
  induction hs generalizing n with
  | nil => simp [hotelCards]
  | cons h hs ih =>
      simp [hotelCards]
      exact ih (n + 1)

/-- No hotel card ever appears among the flight-tab card effects. -/
theorem hotelCard_not_mem_flightCards (c : Nat) (x : Hotel) (n : Nat)
    (fs : List Flight) : Effect.hotelCard c x ∉ flightCards n fs := by
  induction fs generalizing n with
  | nil => simp [flightCards]
  | cons f fs ih =>
      simp [flightCards]
      exact ih (n + 1)

/-- No download button appears among the flight-tab card effects. -/
theorem downloadButton_not_mem_flightCards (lab con fn : String) (n : Nat)
    (fs : List Flight) : Effect.downloadButton lab con fn ∉ flightCards n fs := by
  induction fs generalizing n with
  | nil => simp [flightCards]
  | cons f fs ih =>
      simp [flightCards]
      exact ih (n + 1)

/-- No download button appears among the hotel-tab card effects. -/
theorem downloadButton_not_mem_hotelCards (lab con fn : String) (n : Nat)
    (hs : List Hotel) : Effect.downloadButton lab con fn ∉ hotelCards n hs := by
  induction hs generalizing n with
  | nil => simp [hotelCards]
  | cons h hs ih =>
      simp [hotelCards]
      exact ih (n + 1)

end TravelPlanner

namespace TravelPlanner

/-- C1: for every submission with a selected mode, exactly one external
backend entry point is invoked — `search_flights_endpoint` with only the
flight request for Flights Only, `search_hotels_endpoint` with only the
hotel request for Hotels Only, `complete_travel_search` with both requests
for the combined mode — and no submission (even a rejected one) invokes more
than one entry point. -/
theorem c1_exactly_one_dispatch (backend : BackendCall → BackendResponse)
    (inp : FormInputs) :
    (run_search backend SearchMode.flightsOnly inp).1 =
      [BackendCall.flightsOnly (mkFlightReq inp)] ∧
    (run_search backend SearchMode.hotelsOnly inp).1 =
      [BackendCall.hotelsOnly (mkHotelReq inp)] ∧
    (run_search backend SearchMode.complete inp).1 =
      [BackendCall.complete (mkFlightReq inp) (mkHotelReq inp)] ∧
    (∀ mode, (run_search backend mode inp).1.length = 1) ∧
    (∀ mode, (handleSubmit backend mode inp).1.length ≤ 1) := by
  refine ⟨?_, ?_, ?_, ?_, ?_⟩
  · cases hb : backend (BackendCall.flightsOnly (mkFlightReq inp)) <;>
      simp [run_search, dispatchCall, hb]
  · cases hb : backend (BackendCall.hotelsOnly (mkHotelReq inp)) <;>
      simp [run_search, dispatchCall, hb]
  · cases hb : backend (BackendCall.complete (mkFlightReq inp) (mkHotelReq inp)) <;>
      simp [run_search, dispatchCall, hb]
  · intro mode
    cases hb : backend (dispatchCall mode inp) <;> simp [run_search, hb]
  · intro mode
    by_cases hv : inp.origin = "" ∨ inp.destination = ""
    · simp [handleSubmit, hv]
    · cases hb : backend (dispatchCall mode inp) <;>
        simp [handleSubmit, hv, run_search, hb]

/-- C2: dispatch happens exactly when both origin and destination are
non-empty; an empty one makes the submission produce only the validation
error, with no backend call and no further effect. -/
theorem c2_dispatch_iff_nonempty (backend : BackendCall → BackendResponse)
    (mode : SearchMode) (inp : FormInputs) :
    ((handleSubmit backend mode inp).1 ≠ [] ↔
       inp.origin ≠ "" ∧ inp.destination ≠ "") ∧
    (inp.origin = "" ∨ inp.destination = "" →
       handleSubmit backend mode inp =
         ([], [Effect.errorMsg "Please provide origin and destination."])) := by
  by_cases hv : inp.origin = "" ∨ inp.destination = ""
  · constructor
    · simp only [handleSubmit, if_pos hv]
      simp
      tauto
    · intro _
      simp [handleSubmit, hv]
  · constructor
    · cases hb : backend (dispatchCall mode inp) <;>
        simp [handleSubmit, hv, run_search, hb] <;> tauto
    · intro hc
      exact absurd hc hv

/-- Witness for C2 at a concrete empty-origin submission. -/
theorem c2_dispatch_iff_nonempty_witness :
    handleSubmit (fun _ => BackendResponse.raises "x") SearchMode.complete
        ⟨"", "LAX", "a", "b", true, "", "c", "d"⟩ =
      ([], [Effect.errorMsg "Please provide origin and destination."]) :=
  (c2_dispatch_iff_nonempty (fun _ => BackendResponse.raises "x")
      SearchMode.complete ⟨"", "LAX", "a", "b", true, "", "c", "d"⟩).2
    (Or.inl rfl)

/-- C3: with the use-flight-destination checkbox on, the constructed
`HotelRequest`'s location is the `FlightRequest`'s destination; with it off,
the location is the independently entered hotel-location text. -/
theorem c3_hotel_location (inp : FormInputs) :
    (inp.use_flight_destination = true →
       (mkHotelReq inp).location = (mkFlightReq inp).destination) ∧
    (inp.use_flight_destination = false →
       (mkHotelReq inp).location = inp.hotel_location_input) := by
  constructor <;> intro h <;> simp [mkHotelReq, mkFlightReq, location, h]

/-- Witness for C3: both checkbox positions at concrete inputs. -/
theorem c3_hotel_location_witness :
    (mkHotelReq ⟨"ATL", "LAX", "a", "b", true, "Paris", "c", "d"⟩).location
        = "LAX" ∧
    (mkHotelReq ⟨"ATL", "LAX", "a", "b", false, "Paris", "c", "d"⟩).location
        = "Paris" :=
  ⟨(c3_hotel_location ⟨"ATL", "LAX", "a", "b", true, "Paris", "c", "d"⟩).1 rfl,
   (c3_hotel_location ⟨"ATL", "LAX", "a", "b", false, "Paris", "c", "d"⟩).2 rfl⟩

/-- C4: when the invoked entry point raises, the exception is caught at the
dispatch site, `Search failed: <msg>` is shown, `None` is returned, and the
submission's effects are exactly that error message — no result tabs; the
handler is a total function, so the process does not crash. -/
theorem c4_exception_handled (backend : BackendCall → BackendResponse)
    (mode : SearchMode) (inp : FormInputs) (msg : String)
    (hraise : backend (dispatchCall mode inp) = BackendResponse.raises msg)
    (ho : inp.origin ≠ "") (hd : inp.destination ≠ "") :
    run_search backend mode inp =
      ([dispatchCall mode inp],
       [Effect.errorMsg ("Search failed: " ++ msg)], PyValue.pyNone) ∧
    handleSubmit backend mode inp =
      ([dispatchCall mode inp],
       [Effect.errorMsg ("Search failed: " ++ msg)]) := by
  have hv : ¬ (inp.origin = "" ∨ inp.destination = "") := by tauto
  constructor
  · simp [run_search, hraise]
  · simp [handleSubmit, hv, run_search, hraise]

/-- Witness for C4: a backend that always raises, at a concrete valid
submission. -/
theorem c4_exception_handled_witness :
    handleSubmit (fun _ => BackendResponse.raises "boom") SearchMode.complete
        ⟨"ATL", "LAX", "a", "b", true, "", "c", "d"⟩ =
      ([dispatchCall SearchMode.complete
          ⟨"ATL", "LAX", "a", "b", true, "", "c", "d"⟩],
       [Effect.errorMsg "Search failed: boom"]) :=
  (c4_exception_handled (fun _ => BackendResponse.raises "boom")
      SearchMode.complete ⟨"ATL", "LAX", "a", "b", true, "", "c", "d"⟩
      "boom" rfl (by decide) (by decide)).2

end TravelPlanner

namespace DebugAi

/-- C5 counterexample: the 30-character key
`your_google_api_key_here123456` has plausible length and differs from the
placeholder literal, yet the script classifies it as placeholder, not as
valid format — the placeholder check is substring containment
(`"your_google_api_key_here" in api_key`) and runs before the length
check. -/
theorem c5_counterexample :
    30 ≤ String.length "your_google_api_key_here123456" ∧
    "your_google_api_key_here123456" ≠ placeholderLit ∧
    classifyKey (some "your_google_api_key_here123456")
        = KeyClass.placeholder ∧
    classifyKey (some "your_google_api_key_here123456")
        ≠ KeyClass.validFormat := by decide

/-- C5 (amended): a key equal to the placeholder literal — and, more
generally, any key containing it as a substring, whatever its length —
classifies as placeholder; a non-empty key not containing it and shorter
than 30 characters classifies as too short; a key not containing it with at
least 30 characters classifies as valid format. -/
theorem c5_amended_classification :
    classifyKey (some placeholderLit) = KeyClass.placeholder ∧
    (∀ k : String, strContains placeholderLit k = true →
       classifyKey (some k) = KeyClass.placeholder) ∧
    (∀ k : String, k ≠ "" → strContains placeholderLit k = false →
       k.length < 30 → classifyKey (some k) = KeyClass.tooShort) ∧
    (∀ k : String, strContains placeholderLit k = false →
       30 ≤ k.length → classifyKey (some k) = KeyClass.validFormat) := by
  refine ⟨by decide, ?_, ?_, ?_⟩
  · intro k hk
    have hne : k ≠ "" := by
      intro h
      subst h
      exact absurd hk (by decide)
    simp [classifyKey, hne, hk]
  · intro k hne hnc hlen
    simp [classifyKey, hne, hnc, hlen]
  · intro k hnc hlen
    have hne : k ≠ "" := by
      intro h
      subst h
      exact absurd hlen (by decide)
    have hnl : ¬ (k.length < 30) := by omega
    simp [classifyKey, hne, hnc, hnl]

/-- Witness for the amended C5 at concrete keys of each shape. -/
theorem c5_amended_classification_witness :
    classifyKey (some "AIzaSyB123456789012345678901234")
        = KeyClass.validFormat ∧
    classifyKey (some "short_key") = KeyClass.tooShort :=
  ⟨c5_amended_classification.2.2.2 "AIzaSyB123456789012345678901234"
      (by decide) (by decide),
   c5_amended_classification.2.2.1 "short_key"
      (by decide) (by decide) (by decide)⟩

/-- C6 counterexample: with `GOOGLE_API_KEY` absent, the script does print
the missing-key error, but the connection-test block (debug_ai.py lines
29-58) is not guarded by the `else`, so the script still proceeds to attempt
the test connection — absence is not treated as fatal. -/
theorem c6_counterexample :
    ¬ (DebugStep.printMsg
         "ERROR: GOOGLE_API_KEY not found in environment or .env file"
           ∈ debugScript none ∧
       DebugStep.connectionTest none ∉ debugScript none) := by decide

/-- C6 (amended): with `GOOGLE_API_KEY` absent, the script reports the
absence and skips the shape checks, but still announces and attempts the
test connection with the missing key. -/
theorem c6_amended_missing_key_flow :
    debugScript none =
      [DebugStep.printMsg "Checking API Key configuration...",
       DebugStep.printMsg
         "ERROR: GOOGLE_API_KEY not found in environment or .env file",
       DebugStep.printMsg "\nTesting CrewAI / Gemini Connection...",
       DebugStep.connectionTest none] := by decide

end DebugAi

namespace TravelPlanner

/-- C7: in any mode that shows a flights tab, a result with an empty flights
sequence renders the explicit `No flights found.` notice and zero flight
cards; likewise an empty hotels sequence renders the `No hotels found.`
notice and zero hotel cards in any mode that shows a hotels tab. -/
theorem c7_empty_sequences_notice (mode : SearchMode) (r : SearchResult) :
    (r.flights = [] → mode ≠ SearchMode.hotelsOnly →
       Effect.infoMsg "No flights found." ∈ renderResults mode r ∧
       ∀ c f, Effect.flightCard c f ∉ renderResults mode r) ∧
    (r.hotels = [] → mode ≠ SearchMode.flightsOnly →
       Effect.infoMsg "No hotels found." ∈ renderResults mode r ∧
       ∀ c h, Effect.hotelCard c h ∉ renderResults mode r) := by
  constructor
  · intro hf hm
    constructor
    · cases mode <;> simp_all [renderResults, renderFlightsTab]
    · intro c f
      rcases hh : r.hotels with _ | ⟨h, hs⟩ <;>
        cases mode <;>
          simp_all [renderResults, renderFlightsTab, renderHotelsTab,
            recTabEffects, itineraryTabEffects, flightCard_not_mem_hotelCards]
  · intro hh hm
    constructor
    · cases mode <;> simp_all [renderResults, renderHotelsTab]
    · intro c h
      rcases hf : r.flights with _ | ⟨f, fs⟩ <;>
        cases mode <;>
          simp_all [renderResults, renderFlightsTab, renderHotelsTab,
            recTabEffects, itineraryTabEffects, hotelCard_not_mem_flightCards]

/-- Witness for C7: both notices at a concrete empty result in the combined
mode. -/
theorem c7_empty_sequences_notice_witness :
    Effect.infoMsg "No flights found."
        ∈ renderResults SearchMode.complete ⟨[], [], "a", "b", "c"⟩ ∧
    Effect.infoMsg "No hotels found."
        ∈ renderResults SearchMode.complete ⟨[], [], "a", "b", "c"⟩ :=
  ⟨((c7_empty_sequences_notice SearchMode.complete
        ⟨[], [], "a", "b", "c"⟩).1 rfl (by decide)).1,
   ((c7_empty_sequences_notice SearchMode.complete
        ⟨[], [], "a", "b", "c"⟩).2 rfl (by decide)).1⟩

/-- C8: the rendered tab set is the one selected by the active mode — 2 tabs
in each single-domain mode, 4 in the combined mode — and a file download
appears only in the combined mode, always under the fixed filename
`itinerary.md`. -/
theorem c8_tabs_and_download (mode : SearchMode) (r : SearchResult) :
    Effect.tabsShown (tabLabels mode) ∈ renderResults mode r ∧
    ((mode = SearchMode.flightsOnly ∨ mode = SearchMode.hotelsOnly) →
       (tabLabels mode).length = 2) ∧
    (mode = SearchMode.complete → (tabLabels mode).length = 4) ∧
    (∀ lab con fn, Effect.downloadButton lab con fn ∈ renderResults mode r →
       mode = SearchMode.complete ∧ fn = "itinerary.md") ∧
    (mode = SearchMode.complete →
       Effect.downloadButton "📥 Download Itinerary" r.itinerary "itinerary.md"
         ∈ renderResults mode r) := by
  refine ⟨?_, ?_, ?_, ?_, ?_⟩
  · simp [renderResults]
  · intro h
    rcases h with h | h <;> subst h <;> simp [tabLabels]
  · intro h
    subst h
    simp [tabLabels]
  · intro lab con fn hmem
    rcases hf : r.flights with _ | ⟨f, fs⟩ <;>
      rcases hh : r.hotels with _ | ⟨h, hs⟩ <;>
        cases mode <;>
          simp_all [renderResults, renderFlightsTab, renderHotelsTab,
            recTabEffects, itineraryTabEffects,
            downloadButton_not_mem_flightCards,
            downloadButton_not_mem_hotelCards]
  · intro h
    subst h
    simp [renderResults, recTabEffects, itineraryTabEffects]

/-- Witness for C8 at a concrete result in the combined mode. -/
theorem c8_tabs_and_download_witness :
    (tabLabels SearchMode.complete).length = 4 ∧
    Effect.downloadButton "📥 Download Itinerary" "plan" "itinerary.md"
      ∈ renderResults SearchMode.complete ⟨[], [], "fr", "hr", "plan"⟩ :=
  ⟨(c8_tabs_and_download SearchMode.complete
      ⟨[], [], "fr", "hr", "plan"⟩).2.2.1 rfl,
   (c8_tabs_and_download SearchMode.complete
      ⟨[], [], "fr", "hr", "plan"⟩).2.2.2.2 rfl⟩

/-- C9: the origin/destination presence validation blocks dispatch in every
mode, including Hotels Only, whose single backend call receives only the
hotel request (location, check-in, check-out — no origin or destination
argument); and no presence validation applies to the hotel location, so with
the checkbox off and the field blank the dispatched `HotelRequest` has the
empty string as its location. -/
theorem c9_uniform_validation_and_blank_location
    (backend : BackendCall → BackendResponse) (inp : FormInputs) :
    (∀ mode, inp.origin = "" ∨ inp.destination = "" →
       (handleSubmit backend mode inp).1 = []) ∧
    (inp.origin ≠ "" → inp.destination ≠ "" →
       (handleSubmit backend SearchMode.hotelsOnly inp).1 =
         [BackendCall.hotelsOnly
            { location := location inp
              check_in_date := inp.check_in_date
              check_out_date := inp.check_out_date }]) ∧
    (inp.use_flight_destination = false → inp.hotel_location_input = "" →
       inp.origin ≠ "" → inp.destination ≠ "" →
       (handleSubmit backend SearchMode.hotelsOnly inp).1 =
         [BackendCall.hotelsOnly
            { location := ""
              check_in_date := inp.check_in_date
              check_out_date := inp.check_out_date }]) := by
  refine ⟨?_, ?_, ?_⟩
  · intro mode hv
    simp [handleSubmit, hv]
  · intro ho hd
    have hv : ¬ (inp.origin = "" ∨ inp.destination = "") := by tauto
    cases hb : backend (BackendCall.hotelsOnly (mkHotelReq inp)) <;>
      simp only [mkHotelReq] at hb <;>
      simp [handleSubmit, hv, run_search, dispatchCall, mkHotelReq, hb]
  · intro ht hl ho hd
    have hv : ¬ (inp.origin = "" ∨ inp.destination = "") := by tauto
    cases hb : backend (BackendCall.hotelsOnly (mkHotelReq inp)) <;>
      simp only [mkHotelReq, location, ht, hl, Bool.false_eq_true,
        if_false] at hb <;>
      simp [handleSubmit, hv, run_search, dispatchCall, mkHotelReq,
        location, ht, hl, hb]

/-- Witness for C9: a Hotels Only submission with the checkbox off and a
blank hotel-location field dispatches a request whose location is empty. -/
theorem c9_uniform_validation_and_blank_location_witness :
    (handleSubmit (fun _ => BackendResponse.returns PyValue.pyNone)
        SearchMode.hotelsOnly ⟨"ATL", "LAX", "a", "b", false, "", "c", "d"⟩).1 =
      [BackendCall.hotelsOnly
         { location := "", check_in_date := "c", check_out_date := "d" }] :=
  (c9_uniform_validation_and_blank_location
      (fun _ => BackendResponse.returns PyValue.pyNone)
      ⟨"ATL", "LAX", "a", "b", false, "", "c", "d"⟩).2.2
    rfl rfl (by decide) (by decide)

/-- C10: rendering is gated on the truthiness of the dispatched value, not
merely on it being non-null: when the backend returns any falsy value
without raising, the submission emits no effect at all after validation —
no tabs, no error message, no download. -/
theorem c10_truthiness_gate (backend : BackendCall → BackendResponse)
    (mode : SearchMode) (inp : FormInputs) (v : PyValue)
    (hret : backend (dispatchCall mode inp) = BackendResponse.returns v)
    (hfalsy : truthy v = false)
    (ho : inp.origin ≠ "") (hd : inp.destination ≠ "") :
    (handleSubmit backend mode inp).2 = [] := by
  have hv : ¬ (inp.origin = "" ∨ inp.destination = "") := by tauto
  cases v with
  | pyNone => simp [handleSubmit, hv, run_search, hret]
  | obj r t =>
      simp only [truthy] at hfalsy
      subst hfalsy
      simp [handleSubmit, hv, run_search, hret]

/-- Witness for C10: a backend returning a non-null but falsy object yields
no effects. -/
theorem c10_truthiness_gate_witness :
    (handleSubmit
        (fun _ => BackendResponse.returns
          (PyValue.obj ⟨[], [], "a", "b", "c"⟩ false))
        SearchMode.complete ⟨"ATL", "LAX", "a", "b", true, "", "c", "d"⟩).2
      = [] :=
  c10_truthiness_gate
    (fun _ => BackendResponse.returns (PyValue.obj ⟨[], [], "a", "b", "c"⟩ false))
    SearchMode.complete ⟨"ATL", "LAX", "a", "b", true, "", "c", "d"⟩
    (PyValue.obj ⟨[], [], "a", "b", "c"⟩ false)
    rfl rfl (by decide) (by decide)

end TravelPlanner
